import Mathlib

/-!
Shallow embedding of the lift-and-learn edge device programs:
the content-ingestion HTTP server (`handleUpload` / `processContent`)
and the tag-triggered playback loop (`main` in lift_learn.go), covering
the serial-chunk UID parser and the playback supervisor step.

The file system is modelled as a map from path to file bytes; network,
disk and process effects are injected as explicit outcome parameters so
that the pure control flow of the Go code is captured exactly.
-/

namespace LiftLearn

/-- A file system: each path maps to the bytes currently stored there
(`none` when no file exists at the path). Bytes are modelled as `String`,
matching Go's byte-string duality for the ASCII data in play. -/
abbrev FS := String → Option String

/-- The empty file system. -/
def emptyFS : FS := fun _ => none

/-- Write (create or truncate-and-write) a file, as `os.Create` followed by
a full write does. -/
def setFile (fs : FS) (p : String) (v : String) : FS :=
  fun q => if q = p then some v else fs q

/-- `Thing` from the upload server: one content item of an upload request. -/
structure Thing where
  productId : String
  mediaUrl : String
  nfcTagId : String
  productName : String
deriving DecidableEq

/-- `UploadRequest` from the upload server. -/
structure UploadRequest where
  deploymentId : String
  projectId : String
  customerId : String
  things : List Thing
deriving DecidableEq

/-- Outcome of the `http.Get(thing.MediaUrl)` call: either the transport
fails with an error message, or a response with a status code and body
bytes arrives. -/
inductive FetchOutcome where
  | transportError (msg : String)
  | response (status : Nat) (body : String)
deriving DecidableEq

/-- Outcome of the `io.Copy(out, resp.Body)` call that streams the response
body into the created file: either it completes, or it fails after having
written the first `n` bytes of the body. -/
inductive CopyOutcome where
  | ok
  | failAfter (n : Nat) (msg : String)
deriving DecidableEq

/-- `STORAGE_PATH` constant of the upload server. -/
def STORAGE_PATH : String := "./content"

/-- `filepath.Join` for one separator-free component appended to a
directory (Go's `Join` additionally cleans the result lexically, which is
irrelevant for the paths in the claims). -/
def joinPath (a b : String) : String := a ++ "/" ++ b

/-- Path of the media artifact for a product: `<projectDir>/<productId>.mp4`. -/
def mp4Path (projectDir pid : String) : String := joinPath projectDir (pid ++ ".mp4")

/-- Path of the metadata sidecar for a product: `<projectDir>/<productId>.json`. -/
def jsonPath (projectDir pid : String) : String := joinPath projectDir (pid ++ ".json")

/-- Lower-case hex digit, as Go's JSON encoder emits in `\u00XX` escapes. -/
def hexDigit (n : Nat) : Char :=
  if n < 10 then Char.ofNat (48 + n) else Char.ofNat (87 + n)

/-- Per-character escaping of Go's `encoding/json` string encoder (with its
default HTML escaping of `<`, `>`, `&`). -/
def escapeChar (c : Char) : List Char :=
  if c = '"' then ['\\', '"']
  else if c = '\\' then ['\\', '\\']
  else if c = '\n' then ['\\', 'n']
  else if c = '\r' then ['\\', 'r']
  else if c = '\t' then ['\\', 't']
  else if c = '<' then ['\\', 'u', '0', '0', '3', 'c']
  else if c = '>' then ['\\', 'u', '0', '0', '3', 'e']
  else if c = '&' then ['\\', 'u', '0', '0', '2', '6']
  else if c.toNat < 32 then
    ['\\', 'u', '0', '0', hexDigit (c.toNat / 16), hexDigit (c.toNat % 16)]
  else [c]

/-- A JSON string literal for `s`, per Go's `encoding/json`. -/
def jsonQuote (s : String) : String :=
  "\"" ++ String.mk (s.data.map escapeChar).flatten ++ "\""

/-- The bytes `json.NewEncoder(f).Encode(thing)` writes for a `Thing`:
the object in struct field order, followed by a newline. -/
def encodeThing (t : Thing) : String :=
  "\x7b" ++ jsonQuote "productId" ++ ":" ++ jsonQuote t.productId ++ ","
    ++ jsonQuote "mediaUrl" ++ ":" ++ jsonQuote t.mediaUrl ++ ","
    ++ jsonQuote "nfcTagId" ++ ":" ++ jsonQuote t.nfcTagId ++ ","
    ++ jsonQuote "productName" ++ ":" ++ jsonQuote t.productName ++ "\x7d\n"

/-- `processContent` from the upload server: fetch `thing.MediaUrl`; on a
transport error or a status other than 200 return the corresponding error
with the file system untouched; otherwise create (truncating) the media
file, stream the body into it, and on success also write the JSON sidecar.
A copy failure leaves the created file holding the prefix of the body
written so far. `os.Create` itself failing is not injected here (it would
only add further per-item error cases of the same shape). Returns the
resulting file system and `some errorMessage` exactly when the Go function
returns a non-nil error. -/
def processContent (projectDir : String) (thing : Thing)
    (fetch : FetchOutcome) (copyRes : CopyOutcome) (fs : FS) : FS × Option String :=
  match fetch with
  | .transportError msg => (fs, some ("failed to download content: " ++ msg))
  | .response status body =>
    if status ≠ 200 then
      (fs, some ("failed to download content, status: " ++ toString status))
    else
      match copyRes with
      | .failAfter n msg =>
          (setFile fs (mp4Path projectDir thing.productId) (body.take n),
           some ("failed to save content: " ++ msg))
      | .ok =>
          let fs1 := setFile fs (mp4Path projectDir thing.productId) body
          (setFile fs1 (jsonPath projectDir thing.productId) (encodeThing thing), none)

/-- Parse outcome of the request body (`json.NewDecoder(r.Body).Decode`). -/
inductive RequestBody where
  | malformed
  | valid (req : UploadRequest)

/-- Result of running the per-item goroutines of `handleUpload`: the final
file system, the collected per-item error strings, and the media URLs for
which a download was attempted. -/
structure ProcState where
  fs : FS
  errs : List String
  attempts : List String

/-- The fan-out/join of `handleUpload`: one `processContent` call per thing,
with each item's network and copy outcome given by `env`. The goroutines
are joined before the error channel is drained, so the set of errors is
well defined; this is the in-arrival-order linearization of their effects
(the claims below depend only on the error count and contents, and on the
per-path file contents, which are interleaving-independent since distinct
items write distinct paths in the scenarios considered). -/
def processAll (projectDir : String) (env : Thing → FetchOutcome × CopyOutcome) :
    List Thing → FS → ProcState
  | [], fs => ⟨fs, [], []⟩
  | t :: ts, fs =>
    let oc := env t
    let r := processContent projectDir t oc.1 oc.2 fs
    let rest := processAll projectDir env ts r.1
    match r.2 with
    | some m => ⟨rest.fs, ("failed to process " ++ t.productId ++ ": " ++ m) :: rest.errs,
                 t.mediaUrl :: rest.attempts⟩
    | none => ⟨rest.fs, rest.errs, t.mediaUrl :: rest.attempts⟩

/-- The full observable outcome of one `handleUpload` call: HTTP status
code, the JSON response fields (when a JSON response is written), the
plain-text error body (when `http.Error` is used), the resulting file
system, and the download attempts made. -/
structure HandlerOutcome where
  httpStatus : Nat
  jsonStatus : Option String
  jsonMessage : Option String
  jsonErrors : List String
  textBody : Option String
  fs : FS
  attempts : List String

/-- `handleUpload` from the upload server. `mkdirOk` is the outcome of
`os.MkdirAll(projectDir, 0755)`. A JSON response is written without an
explicit `WriteHeader`, so its HTTP status is 200. -/
def handleUpload (method : String) (body : RequestBody) (mkdirOk : Bool)
    (env : Thing → FetchOutcome × CopyOutcome) (fs : FS) : HandlerOutcome :=
  if method ≠ "POST" then
    ⟨405, none, none, [], some "Method not allowed", fs, []⟩
  else
    match body with
    | .malformed => ⟨400, none, none, [], some "Invalid request body", fs, []⟩
    | .valid req =>
      if mkdirOk = false then
        ⟨500, none, none, [], some "Failed to create project directory", fs, []⟩
      else
        let r := processAll (joinPath STORAGE_PATH req.projectId) env req.things fs
        if r.errs ≠ [] then
          ⟨200, some "partial_success", none, r.errs, none, r.fs, r.attempts⟩
        else
          ⟨200, some "success",
            some ("Successfully processed deployment " ++ req.deploymentId),
            [], none, r.fs, r.attempts⟩

/-- Does this item's `processContent` call fail (its error entry is sent on
the error channel)? Mirrors the error branches of `processContent`. -/
def itemFails (oc : FetchOutcome × CopyOutcome) : Bool :=
  match oc.1 with
  | .transportError _ => true
  | .response status _ =>
    if status ≠ 200 then true
    else
      match oc.2 with
      | .ok => false
      | .failAfter _ _ => true

/-- Does this item's download step fail (transport failure or non-200
status), as opposed to a failure while saving the body? -/
def downloadFails (fetch : FetchOutcome) : Bool :=
  match fetch with
  | .transportError _ => true
  | .response status _ => status ≠ 200

/-- Number of things in the list whose processing fails. -/
def countFails (env : Thing → FetchOutcome × CopyOutcome) (ts : List Thing) : Nat :=
  (ts.filter (fun t => itemFails (env t))).length

/-- Number of things in the list whose download fails. -/
def countDownloadFails (env : Thing → FetchOutcome × CopyOutcome) (ts : List Thing) : Nat :=
  (ts.filter (fun t => downloadFails (env t).1)).length

/-! ### Tag Stream Parser (lift_learn.go read loop, per-chunk processing) -/

/-- The literal marker `"UID Value:"` (10 characters) that frames a scan
event inside a serial chunk. Chunks are byte strings; they are modelled at
character granularity, which coincides with Go's byte indexing for the
ASCII data exchanged on this link. -/
def marker : List Char := ['U', 'I', 'D', ' ', 'V', 'a', 'l', 'u', 'e', ':']

/-- Is `sub` a prefix of `l`? -/
def isPrefixOfL : List Char → List Char → Bool
  | [], _ => true
  | _ :: _, [] => false
  | a :: as, b :: bs => a == b && isPrefixOfL as bs

/-- `strings.Index`: the first index at which `sub` occurs as a contiguous
substring of `l`, or `none` (`-1` in Go) when it does not occur.
`strings.Contains` is the `isSome` of this. -/
def indexOfSub (sub : List Char) : List Char → Option Nat
  | [] => if isPrefixOfL sub [] then some 0 else none
  | c :: rest =>
    if isPrefixOfL sub (c :: rest) then some 0
    else (indexOfSub sub rest).map (fun n => n + 1)

/-- `strings.Split(s, "\r\n")[0]`: the prefix of `s` up to (excluding) the
first occurrence of the two-character sequence CR LF, or all of `s` when
that sequence does not occur. -/
def takeUntilCRLF : List Char → List Char
  | [] => []
  | c :: rest =>
    if c = '\r' ∧ rest.head? = some '\n' then []
    else c :: takeUntilCRLF rest

/-- ASCII whitespace as trimmed by `strings.TrimSpace` (the Unicode cases
do not arise for this device's output). -/
def isSpaceChar (c : Char) : Bool :=
  c = ' ' || c = '\t' || c = '\n' || c = '\r' || c = '\x0b' || c = '\x0c'

/-- `strings.TrimSpace`: drop whitespace from both ends. -/
def trimSpace (l : List Char) : List Char :=
  ((l.dropWhile isSpaceChar).reverse.dropWhile isSpaceChar).reverse

/-- What the read loop does with one chunk: no marker means no event;
otherwise the code evaluates `data[strings.Index(data, "UID Value:")+11:]`,
which panics (`crash`) when the chunk ends fewer than 11 characters after
the start of the marker, and otherwise emits the trimmed text up to the
next CR LF as the UID. Note the slice starts 11 characters past the start
of the 10-character marker. -/
inductive ParseResult where
  | noMarker
  | emit (uid : List Char)
  | crash
deriving DecidableEq

/-- Per-chunk UID extraction of the read loop (lift_learn.go lines 56-61). -/
def extractUID (data : List Char) : ParseResult :=
  match indexOfSub marker data with
  | none => .noMarker
  | some i =>
    if data.length < i + 11 then .crash
    else .emit (trimSpace (takeUntilCRLF (data.drop (i + 11))))

/-- The sequence of UID events emitted for a sequence of chunks read off
the serial port: each chunk is processed independently (the loop keeps no
carry-over between reads), and a crash terminates the process, so no
further events are emitted. -/
def streamUIDs : List (List Char) → List (List Char)
  | [] => []
  | c :: cs =>
    match extractUID c with
    | .noMarker => streamUIDs cs
    | .emit u => u :: streamUIDs cs
    | .crash => []

/-- The UID the spec's words prescribe for a chunk containing the marker:
the token following the (10-character) marker, up to the next CR LF,
trimmed. Stated from the spec for comparison with `extractUID`. -/
def specTokenUID (data : List Char) : Option (List Char) :=
  match indexOfSub marker data with
  | none => none
  | some i => some (trimSpace (takeUntilCRLF (data.drop (i + marker.length))))

/-! ### Playback Supervisor (lift_learn.go scan-event handling) -/

/-- The supervisor's record of the player command it tracks (`currentCmd`):
the video path it was built for and whether it carries a process handle
(`currentCmd.Process != nil`, which holds exactly when `Start` succeeded). -/
structure Session where
  path : String
  hasProcess : Bool
deriving DecidableEq

/-- Observable actions of one scan-event iteration, in program order. -/
inductive PAction where
  | printTag (uid : String)
  | printPath (p : String)
  | logFileError (p : String)
  | printKilling
  | kill (p : String)
  | printPlaying (p : String)
  | printRunning (p : String)
  | startAttempt (p : String)
  | logStartError (p : String)
  | logStarted (p : String)
  | spawnWaiter (p : String)
deriving DecidableEq

/-- One iteration of the scan-event handling in `main` (lift_learn.go lines
63-106) for a parsed UID: look the UID up in the mapping (a miss is a
no-op); check the mapped path exists (`os.Stat`), logging and discarding
on failure; if the tracked command has a process handle, issue
`Process.Kill()` (a signal, not awaited); then build the new `mpv` command
— this replaces `currentCmd` before `Start()` is called — and attempt to
start it, logging on failure, or logging success and spawning the detached
`Wait` goroutine for the new process. Returns the new tracked session and
the ordered action trace. -/
def processScan (mapping : String → Option String) (fileExists : String → Bool)
    (startOk : Bool) (st : Option Session) (uid : String) :
    Option Session × List PAction :=
  match mapping uid with
  | none => (st, [.printTag uid])
  | some p =>
    if fileExists p then
      let killActs : List PAction :=
        match st with
        | some c => if c.hasProcess then [.printKilling, .kill c.path] else []
        | none => []
      if startOk then
        (some ⟨p, true⟩,
         [.printTag uid, .printPath p] ++ killActs ++
           [.printPlaying p, .printRunning p, .startAttempt p, .logStarted p, .spawnWaiter p])
      else
        (some ⟨p, false⟩,
         [.printTag uid, .printPath p] ++ killActs ++
           [.printPlaying p, .printRunning p, .startAttempt p, .logStartError p])
    else
      (st, [.printTag uid, .printPath p, .logFileError p])

/-! ### Helper lemmas -/

/-- `processContent` returns an error exactly when the item's injected
outcomes make it fail. -/
theorem processContent_snd_isSome (projectDir : String) (thing : Thing)
    (fetch : FetchOutcome) (copyRes : CopyOutcome) (fs : FS) :
    (processContent projectDir thing fetch copyRes fs).2.isSome
      = itemFails (fetch, copyRes) := by
  cases fetch with
  | transportError msg => rfl
  | response status body =>
    by_cases h : status = 200
    · subst h; cases copyRes <;> simp [processContent, itemFails]
    · simp [processContent, itemFails, h]

/-- The join of the fan-out collects exactly one error per failing item. -/
theorem processAll_errs_length (projectDir : String)
    (env : Thing → FetchOutcome × CopyOutcome) (ts : List Thing) (fs : FS) :
    (processAll projectDir env ts fs).errs.length = countFails env ts := by
  induction ts generalizing fs with
  | nil => rfl
  | cons t ts ih =>
    have h := processContent_snd_isSome projectDir t (env t).1 (env t).2 fs
    simp only [processAll]
    cases hp : (processContent projectDir t (env t).1 (env t).2 fs).2 with
    | none =>
      rw [hp] at h
      simp only [Option.isSome_none] at h
      simp [countFails, List.filter_cons, ← h, ih]
    | some m =>
      rw [hp] at h
      simp only [Option.isSome_some] at h
      simp [countFails, List.filter_cons, ← h, ih]

/-- The media path and the sidecar path of one product are distinct. -/
theorem mp4Path_ne_jsonPath (projectDir pid : String) :
    mp4Path projectDir pid ≠ jsonPath projectDir pid := by
  intro h
  have h2 := congrArg String.length h
  have e1 : (".mp4" : String).length = 4 := rfl
  have e2 : (".json" : String).length = 5 := rfl
  simp only [mp4Path, jsonPath, joinPath, String.length_append, e1, e2] at h2
  omega

/-- Splitting the body prefix out of `takeUntilCRLF`: the prefix before the
first CR LF is returned whole when it contains no CR. -/
theorem takeUntilCRLF_append (tok rest : List Char) (hr : '\r' ∉ tok) :
    takeUntilCRLF (tok ++ '\r' :: '\n' :: rest) = tok := by
  induction tok with
  | nil => rfl
  | cons c cs ih =>
    have hc : c ≠ '\r' := fun h => hr (h ▸ List.mem_cons_self c cs)
    have hcs : '\r' ∉ cs := fun h => hr (List.mem_cons_of_mem c h)
    simp only [List.cons_append, takeUntilCRLF]
    rw [if_neg (fun hand => hc hand.1)]
    exact congrArg (fun l => c :: l) (ih hcs)

/-! ### Concrete scenario data -/

/-- The single-item request of the spec's concrete scenarios. -/
def specReq : UploadRequest :=
  ⟨"d1", "p1", "c1", [⟨"sku1", "http://example/v.mp4", "T1", "Widget"⟩]⟩

/-- Environment in which every download returns HTTP 404. -/
def env404 : Thing → FetchOutcome × CopyOutcome := fun _ => (.response 404 "", .ok)

/-- Environment in which every download returns 200 but saving the body
fails after 2 bytes. -/
def envSaveFail : Thing → FetchOutcome × CopyOutcome :=
  fun _ => (.response 200 "VIDEO", .failAfter 2 "disk error")

/-! ### Claim theorems: ingestion -/

/-- C1 (amended): for every well-formed POST ingestion request (directory
creation succeeding), with `j` the number of items whose processing fails
(download failure or failure while saving), the response status is
`success` iff `j = 0`, otherwise it is `partial_success`, the `errors`
list has exactly `j` entries, and the HTTP status code is 200 in both
cases. (As stated, with `j` counting only download failures, the claim is
false: a save failure also produces `partial_success`.) -/
theorem handleUpload_status_policy (req : UploadRequest)
    (env : Thing → FetchOutcome × CopyOutcome) (fs : FS) :
    (handleUpload "POST" (.valid req) true env fs).httpStatus = 200 ∧
    ((handleUpload "POST" (.valid req) true env fs).jsonStatus = some "success" ↔
      countFails env req.things = 0) ∧
    ((handleUpload "POST" (.valid req) true env fs).jsonStatus = some "success" ∨
      (handleUpload "POST" (.valid req) true env fs).jsonStatus = some "partial_success") ∧
    (handleUpload "POST" (.valid req) true env fs).jsonErrors.length
      = countFails env req.things := by
  have hlen := processAll_errs_length (joinPath STORAGE_PATH req.projectId) env req.things fs
  by_cases h : (processAll (joinPath STORAGE_PATH req.projectId) env req.things fs).errs = []
  · have h0 : countFails env req.things = 0 := by rw [← hlen, h]; rfl
    simp [handleUpload, h, h0]
  · have h0 : countFails env req.things ≠ 0 := by
      rw [← hlen]; simpa using h
    simp [handleUpload, h, h0, ← hlen]

/-- C1 counterexample: a one-item request whose download succeeds (HTTP
200) but whose save fails yields `partial_success` although zero items
failed to download, refuting "status = success iff j = 0" for `j` the
number of download failures. -/
theorem handleUpload_save_failure_partial :
    countDownloadFails envSaveFail specReq.things = 0 ∧
    (handleUpload "POST" (.valid specReq) true envSaveFail emptyFS).jsonStatus
      = some "partial_success" ∧
    (handleUpload "POST" (.valid specReq) true envSaveFail emptyFS).jsonStatus
      ≠ some "success" :=
  ⟨by decide, by decide, by decide⟩

/-- C3 (amended): a retrieval that fails before the file is created
(transport failure or a response status other than 200) leaves the file
system — in particular any prior artifact — completely untouched; and in
the concrete scenario where the single item's `mediaUrl` returns 404, the
response has status `partial_success` with exactly the error
`failed to process sku1: failed to download content, status: 404` and the
file system is unchanged, so no `sku1.mp4` is created. (As stated the
claim is false for a failure while saving the body: `os.Create` has
already truncated the prior artifact, which is then left holding the
partial new bytes.) -/
theorem processContent_failed_download_preserves (projectDir : String)
    (thing : Thing) (fetch : FetchOutcome) (copyRes : CopyOutcome) (fs fs0 : FS)
    (h : downloadFails fetch = true) :
    (processContent projectDir thing fetch copyRes fs).1 = fs ∧
    (handleUpload "POST" (.valid specReq) true env404 fs0).jsonStatus
      = some "partial_success" ∧
    (handleUpload "POST" (.valid specReq) true env404 fs0).jsonErrors
      = ["failed to process sku1: failed to download content, status: 404"] ∧
    (handleUpload "POST" (.valid specReq) true env404 fs0).fs = fs0 := by
  refine ⟨?_, rfl, rfl, rfl⟩
  cases fetch with
  | transportError msg => rfl
  | response status body =>
    have hs : status ≠ 200 := by
      intro he
      subst he
      simp [downloadFails] at h
    simp [processContent, hs]

/-- Witness for C3: the amended theorem applied at the spec's 404 scenario
on the empty file system. -/
theorem processContent_failed_download_preserves_witness :
    (processContent "./content/p1" ⟨"sku1", "http://example/v.mp4", "T1", "Widget"⟩
        (.response 404 "") .ok emptyFS).1 = emptyFS ∧
    (handleUpload "POST" (.valid specReq) true env404 emptyFS).jsonStatus
      = some "partial_success" ∧
    (handleUpload "POST" (.valid specReq) true env404 emptyFS).jsonErrors
      = ["failed to process sku1: failed to download content, status: 404"] ∧
    (handleUpload "POST" (.valid specReq) true env404 emptyFS).fs = emptyFS :=
  processContent_failed_download_preserves "./content/p1"
    ⟨"sku1", "http://example/v.mp4", "T1", "Widget"⟩ (.response 404 "") .ok
    emptyFS emptyFS (by decide)

/-- C3 counterexample: with `sku1.mp4` already holding `OLDBYTES`, a
retrieval that returns 200 but fails while saving after 3 bytes leaves the
artifact holding `NEW` — the prior artifact's bytes are not untouched. -/
theorem processContent_copy_failure_clobbers :
    (processContent "./content/p1" ⟨"sku1", "http://example/v.mp4", "T1", "Widget"⟩
        (.response 200 "NEWBYTES") (.failAfter 3 "connection reset")
        (setFile emptyFS (mp4Path "./content/p1" "sku1") "OLDBYTES")).1
      (mp4Path "./content/p1" "sku1") = some "NEW" ∧
    (setFile emptyFS (mp4Path "./content/p1" "sku1") "OLDBYTES")
      (mp4Path "./content/p1" "sku1") = some "OLDBYTES" ∧
    some "NEW" ≠ some "OLDBYTES" :=
  ⟨by decide, by decide, by decide⟩

/-- C8 (confirmed): when the retrieval of a ContentItem succeeds with
status 200 and body bytes `B`, `processContent` returns no error, writes
exactly `B` to `<projectDir>/<productId>.mp4`, and writes the JSON
serialization of the item to `<projectDir>/<productId>.json`. -/
theorem processContent_success_writes (projectDir : String) (thing : Thing)
    (B : String) (fs : FS) :
    (processContent projectDir thing (.response 200 B) .ok fs).2 = none ∧
    (processContent projectDir thing (.response 200 B) .ok fs).1
      (mp4Path projectDir thing.productId) = some B ∧
    (processContent projectDir thing (.response 200 B) .ok fs).1
      (jsonPath projectDir thing.productId) = some (encodeThing thing) := by
  refine ⟨rfl, ?_, ?_⟩
  · simp [processContent, setFile, mp4Path_ne_jsonPath projectDir thing.productId]
  · simp [processContent, setFile]

/-- C9 (confirmed): a non-POST request yields 405, a malformed body yields
400, and a directory-creation failure yields 500; in each case the handler
returns with the file system unchanged and no download attempted. -/
theorem handleUpload_early_rejects (method : String) (req : UploadRequest)
    (env : Thing → FetchOutcome × CopyOutcome) (fs : FS) (hm : method ≠ "POST") :
    handleUpload method (.valid req) true env fs
      = ⟨405, none, none, [], some "Method not allowed", fs, []⟩ ∧
    handleUpload "POST" .malformed true env fs
      = ⟨400, none, none, [], some "Invalid request body", fs, []⟩ ∧
    handleUpload "POST" (.valid req) false env fs
      = ⟨500, none, none, [], some "Failed to create project directory", fs, []⟩ := by
  refine ⟨?_, rfl, rfl⟩
  unfold handleUpload
  rw [if_pos hm]

/-- Witness for C9: the rejections at a concrete GET request. -/
theorem handleUpload_early_rejects_witness :
    handleUpload "GET" (.valid specReq) true env404 emptyFS
      = ⟨405, none, none, [], some "Method not allowed", emptyFS, []⟩ ∧
    handleUpload "POST" .malformed true env404 emptyFS
      = ⟨400, none, none, [], some "Invalid request body", emptyFS, []⟩ ∧
    handleUpload "POST" (.valid specReq) false env404 emptyFS
      = ⟨500, none, none, [], some "Failed to create project directory", emptyFS, []⟩ :=
  handleUpload_early_rejects "GET" specReq env404 emptyFS (by decide)

/-- C10 (confirmed): a well-formed POST request with an empty `things`
sequence (after successful directory creation) yields HTTP 200 with status
`success` and message `Successfully processed deployment <deploymentId>`,
no errors, an unchanged file system (no media or sidecar file written) and
no download attempts. -/
theorem handleUpload_empty_things (dep pid cid : String)
    (env : Thing → FetchOutcome × CopyOutcome) (fs : FS) :
    handleUpload "POST" (.valid ⟨dep, pid, cid, []⟩) true env fs
      = ⟨200, some "success", some ("Successfully processed deployment " ++ dep),
          [], none, fs, []⟩ := rfl

/-! ### Claim theorems: tag stream parser -/

/-- C4 (amended): the parser emits the text starting 11 characters after
the start of the 10-character marker — i.e. it skips the marker plus one
further character — up to the next CR LF, trimmed of surrounding
whitespace. For every chunk of the form marker, one space, a CR-free
token, CR LF, arbitrary tail, this is the trimmed token, matching the
claim; when the character right after the colon is not a space the first
character of the token is lost. -/
theorem extractUID_marker_space (tok rest : List Char) (hr : '\r' ∉ tok) :
    extractUID (marker ++ ' ' :: (tok ++ '\r' :: '\n' :: rest))
      = .emit (trimSpace tok) := by
  have hdrop : (marker ++ ' ' :: (tok ++ '\r' :: '\n' :: rest)).drop (0 + 11)
      = tok ++ '\r' :: '\n' :: rest := rfl
  have hlen : ¬ ((marker ++ ' ' :: (tok ++ '\r' :: '\n' :: rest)).length < 0 + 11) := by
    simp only [marker, List.cons_append, List.nil_append, List.length_cons,
      List.length_append]
    omega
  change (if (marker ++ ' ' :: (tok ++ '\r' :: '\n' :: rest)).length < 0 + 11
      then ParseResult.crash
      else ParseResult.emit (trimSpace (takeUntilCRLF
        ((marker ++ ' ' :: (tok ++ '\r' :: '\n' :: rest)).drop (0 + 11)))))
    = ParseResult.emit (trimSpace tok)
  rw [if_neg hlen, hdrop, takeUntilCRLF_append tok rest hr]

/-- Witness for C4: the amended theorem applied to the chunk
`UID Value: ABC` followed by CR LF. -/
theorem extractUID_marker_space_witness :
    extractUID (marker ++ ' ' :: (['A', 'B', 'C'] ++ '\r' :: '\n' :: []))
      = .emit (trimSpace ['A', 'B', 'C']) :=
  extractUID_marker_space ['A', 'B', 'C'] [] (by decide)

/-- C4 counterexample: for the chunk `UID Value:ABC` followed by CR LF,
the token following the marker up to CR LF, trimmed, is `ABC` (as
`specTokenUID`, stated from the spec's words, computes), but the code
emits `BC`: the character immediately after the marker is skipped. -/
theorem extractUID_skips_eleven_cx :
    extractUID ("UID Value:ABC".data ++ ['\r', '\n']) = .emit ['B', 'C'] ∧
    specTokenUID ("UID Value:ABC".data ++ ['\r', '\n']) = some ['A', 'B', 'C'] ∧
    ParseResult.emit ['B', 'C'] ≠ ParseResult.emit ['A', 'B', 'C'] :=
  ⟨by decide, by decide, by decide⟩

/-- C5 (amended): the read loop keeps no carry-over between chunks, so a
UID record split across two reads is never reassembled and its full UID is
never emitted: when the split leaves the marker incomplete (the marker
occurs in neither chunk) no event at all is emitted for the record, but
when the split falls after the marker the first chunk yields an event with
a truncated UID — for the record `UID Value: ABC` CR LF split as
`UID Value: A` / `BC` CR LF, the event `A` is emitted instead of `ABC`. -/
theorem splitRecord_not_reassembled (c1 c2 : List Char)
    (h1 : indexOfSub marker c1 = none) (h2 : indexOfSub marker c2 = none) :
    streamUIDs [c1, c2] = [] ∧
    streamUIDs ["UID Value: A".data, "BC".data ++ ['\r', '\n']] = [['A']] ∧
    (['A'] : List Char) ≠ ['A', 'B', 'C'] := by
  refine ⟨?_, by decide, by decide⟩
  simp [streamUIDs, extractUID, h1, h2]

/-- Witness for C5: the amended theorem applied to the record
`UID Value: ABC` CR LF split inside the marker as `UID Val` / `ue: ABC` CR LF. -/
theorem splitRecord_not_reassembled_witness :
    streamUIDs ["UID Val".data, "ue: ABC".data ++ ['\r', '\n']] = [] ∧
    streamUIDs ["UID Value: A".data, "BC".data ++ ['\r', '\n']] = [['A']] ∧
    (['A'] : List Char) ≠ ['A', 'B', 'C'] :=
  splitRecord_not_reassembled "UID Val".data ("ue: ABC".data ++ ['\r', '\n'])
    (by decide) (by decide)

/-- C5 counterexample: the record `UID Value: ABC` CR LF split across the
two reads `UID Value: A` and `BC` CR LF is not dropped: a UID event (with
the truncated UID `A`) is emitted. -/
theorem streamUIDs_split_emits_cx :
    streamUIDs ["UID Value: A".data, "BC".data ++ ['\r', '\n']] = [['A']] ∧
    ([['A']] : List (List Char)) ≠ [] :=
  ⟨by decide, by decide⟩

/-! ### Claim theorems: playback supervisor -/

/-- C2 (amended): on a scan event for a mapped UID whose path exists, if
starting the new player process fails, the failure is logged — but the
tracked session reference has already been replaced by the new
(never-started, no-process-handle) session before the start attempt, so
after the event it refers to the new session, not to the one active before
the event. -/
theorem processScan_start_failure_replaces (mapping : String → Option String)
    (fileExists : String → Bool) (st : Option Session) (uid p : String)
    (hm : mapping uid = some p) (hf : fileExists p = true) :
    (processScan mapping fileExists false st uid).1 = some ⟨p, false⟩ ∧
    PAction.logStartError p ∈ (processScan mapping fileExists false st uid).2 := by
  cases st with
  | none => simp [processScan, hm, hf]
  | some c =>
    cases c with
    | mk q hasP => cases hasP <;> simp [processScan, hm, hf]

/-- Witness for C2: a failed start with an active session tracking
`old.mp4` leaves the supervisor tracking the new `new.mp4` session. -/
theorem processScan_start_failure_replaces_witness :
    (processScan (fun u => if u = "TAG1" then some "new.mp4" else none)
        (fun _ => true) false (some ⟨"old.mp4", true⟩) "TAG1").1
      = some ⟨"new.mp4", false⟩ ∧
    PAction.logStartError "new.mp4"
      ∈ (processScan (fun u => if u = "TAG1" then some "new.mp4" else none)
          (fun _ => true) false (some ⟨"old.mp4", true⟩) "TAG1").2 :=
  processScan_start_failure_replaces
    (fun u => if u = "TAG1" then some "new.mp4" else none) (fun _ => true)
    (some ⟨"old.mp4", true⟩) "TAG1" "new.mp4" (by decide) rfl

/-- C2 counterexample: with session `old.mp4` active, a scan of a mapped
UID whose path exists and whose player fails to start leaves the tracked
reference equal to the new session, not the previously active one. -/
theorem processScan_start_failure_cx :
    (processScan (fun u => if u = "TAG1" then some "new.mp4" else none)
        (fun _ => true) false (some ⟨"old.mp4", true⟩) "TAG1").1
      = some ⟨"new.mp4", false⟩ ∧
    (processScan (fun u => if u = "TAG1" then some "new.mp4" else none)
        (fun _ => true) false (some ⟨"old.mp4", true⟩) "TAG1").1
      ≠ some ⟨"old.mp4", true⟩ :=
  ⟨by decide, by decide⟩

/-- C6 (confirmed): on a scan event for a mapped UID whose path exists,
with a previously started player process tracked (the session carries a
process handle), the `Kill` of the old process is issued strictly before
the new player is launched, and no action waiting on the old process's
termination occurs anywhere in the trace (the only waiter spawned is the
detached one for the new process). -/
theorem processScan_kills_before_start (mapping : String → Option String)
    (fileExists : String → Bool) (startOk : Bool) (uid p q : String)
    (hm : mapping uid = some p) (hf : fileExists p = true) :
    (processScan mapping fileExists startOk (some ⟨q, true⟩) uid).2 =
      [.printTag uid, .printPath p, .printKilling, .kill q,
        .printPlaying p, .printRunning p, .startAttempt p] ++
      (if startOk then [.logStarted p, .spawnWaiter p] else [.logStartError p]) := by
  cases startOk <;> simp [processScan, hm, hf]

/-- Witness for C6: the trace at a concrete scan with an active session. -/
theorem processScan_kills_before_start_witness :
    (processScan (fun u => if u = "TAG1" then some "new.mp4" else none)
        (fun _ => true) true (some ⟨"old.mp4", true⟩) "TAG1").2 =
      [.printTag "TAG1", .printPath "new.mp4", .printKilling, .kill "old.mp4",
        .printPlaying "new.mp4", .printRunning "new.mp4", .startAttempt "new.mp4"] ++
      (if true then [.logStarted "new.mp4", .spawnWaiter "new.mp4"]
        else [.logStartError "new.mp4"]) :=
  processScan_kills_before_start
    (fun u => if u = "TAG1" then some "new.mp4" else none) (fun _ => true)
    true "TAG1" "new.mp4" "old.mp4" (by decide) rfl

/-- C7 (confirmed): a scan event whose UID is absent from the mapping, and
a scan event whose mapped path does not exist on disk (after logging the
file error), leave the tracked session unchanged, and the trace contains
no kill and no start: the exact traces are the print of the UID, resp. the
prints plus the file-error log. -/
theorem processScan_discard_no_transition (mapping : String → Option String)
    (fileExists : String → Bool) (startOk : Bool) (st : Option Session)
    (uid : String) :
    (mapping uid = none →
      processScan mapping fileExists startOk st uid = (st, [.printTag uid])) ∧
    (∀ p, mapping uid = some p → fileExists p = false →
      processScan mapping fileExists startOk st uid
        = (st, [.printTag uid, .printPath p, .logFileError p])) := by
  constructor
  · intro h; simp [processScan, h]
  · intro p hm hf; simp [processScan, hm, hf]

/-- Witness for C7: an unmapped UID and a mapped UID with a missing file,
both at concrete inputs. -/
theorem processScan_discard_no_transition_witness :
    processScan (fun _ => none) (fun _ => true) true
        (some ⟨"old.mp4", true⟩) "XX"
      = (some ⟨"old.mp4", true⟩, [.printTag "XX"]) ∧
    processScan (fun u => if u = "TAG1" then some "gone.mp4" else none)
        (fun _ => false) true (some ⟨"old.mp4", true⟩) "TAG1"
      = (some ⟨"old.mp4", true⟩,
          [.printTag "TAG1", .printPath "gone.mp4", .logFileError "gone.mp4"]) :=
  ⟨(processScan_discard_no_transition (fun _ => none) (fun _ => true) true
      (some ⟨"old.mp4", true⟩) "XX").1 rfl,
   (processScan_discard_no_transition
      (fun u => if u = "TAG1" then some "gone.mp4" else none) (fun _ => false)
      true (some ⟨"old.mp4", true⟩) "TAG1").2 "gone.mp4" (by decide) rfl⟩

end LiftLearn
